import Mathlib

/-!
Verification of the Iris File Extension serialization engine
(src/IrisCodecExtension.cpp, src/IrisCodecExtension.hpp) against its
natural-language specification.  The byte region is embedded as a function
from absolute offsets to bytes; every reader and validator below is a direct
translation of the corresponding C++ function, including its control flow
and failure messages.
-/

set_option maxRecDepth 4000

namespace IrisCodec

/-- A byte region: absolute offset to byte value.  Every load masks with
256 because memory holds bytes. -/
def B : Type := Nat → Nat

/-- The all-zero region used to build concrete test files. -/
def zeroB : B := fun _ => 0

def loadU8 (b : B) (p : Nat) : Nat := b p % 256

/-- Little-endian load of `n` bytes starting at `p` (byte at `p` least
significant), mirroring the `__LE_LOAD_*` primitives. -/
def loadLE (b : B) (p : Nat) : Nat → Nat
  | 0 => 0
  | n + 1 => loadU8 b p + 256 * loadLE b (p + 1) n

def loadU16 (b : B) (p : Nat) : Nat := loadLE b p 2

def loadU24 (b : B) (p : Nat) : Nat := loadLE b p 3

def loadU32 (b : B) (p : Nat) : Nat := loadLE b p 4

def loadU40 (b : B) (p : Nat) : Nat := loadLE b p 5

def loadU64 (b : B) (p : Nat) : Nat := loadLE b p 8

/-- Little-endian store of the low `n` bytes of `v` at `p`, mirroring the
`__LE_STORE_*` primitives (memcpy of the low bytes). -/
def storeLE (b : B) (p n v : Nat) : B :=
  fun x => if p ≤ x ∧ x < p + n then v / 256 ^ (x - p) % 256 else b x

def storeU8 (b : B) (p v : Nat) : B := storeLE b p 1 v

def storeU16 (b : B) (p v : Nat) : B := storeLE b p 2 v

def storeU24 (b : B) (p v : Nat) : B := storeLE b p 3 v

def storeU32 (b : B) (p v : Nat) : B := storeLE b p 4 v

def storeU40 (b : B) (p v : Nat) : B := storeLE b p 5 v

def storeU64 (b : B) (p v : Nat) : B := storeLE b p 8 v

/-- memcpy of `n` bytes of `data` to offset `p`. -/
def memcpyB (b : B) (p : Nat) (data : List Nat) (n : Nat) : B :=
  fun x => if p ≤ x ∧ x < p + n then data.getD (x - p) 0 % 256 else b x

/-- Read `n` raw bytes starting at `p` (std::string construction from a
byte pointer and a length). -/
def readBytes (b : B) (p n : Nat) : List Nat :=
  (List.range n).map (fun i => loadU8 b (p + i))

/-- A region built from a list of (position, byte-width, value) fields,
applied in order over the zero region. -/
def buildRegion (fields : List (Nat × Nat × Nat)) : B :=
  fields.foldl (fun b f => storeLE b f.1 f.2.1 f.2.2) zeroB

/-! ### Result flags

Modelled from the spec: `Iris::Result` and `Iris::ResultFlag` are declared
in IrisTypes.hpp, which is not among this repository sources.  The spec
(section Failure semantics) fixes a bit-set over SUCCESS,
WARNING_VALIDATION, VALIDATION_FAILURE and FAILURE in which any FAILURE
bit propagates while WARNING bits are recoverable, so VALIDATION_FAILURE
carries the FAILURE bit and WARNING_VALIDATION carries the WARNING bit. -/

def IRIS_SUCCESS : Nat := 0

def IRIS_FAILURE : Nat := 1

def IRIS_WARNING : Nat := 2

def IRIS_VALIDATION_FAILURE : Nat := 5

def IRIS_WARNING_VALIDATION : Nat := 6

structure Result where
  flag : Nat
  message : String
deriving DecidableEq, Repr

def Result.success : Result := ⟨IRIS_SUCCESS, ""⟩

/-- The C++ test `result & FLAG` on the result bit-set. -/
def Result.hasFlag (r : Result) (f : Nat) : Bool := (r.flag &&& f) != 0

/-! ### IEEE-754 binary32 values

`LOAD_F32` reads four bytes little-endian and bit-casts to an IEEE-754
binary32.  Finite values are represented exactly: a decoded value is the
integer numerator of the real value over the fixed denominator `2 ^ 149`
(normals: `(2^23 + m) * 2^(e-1)`; subnormals: `m`). -/

inductive F32 where
  | nan : F32
  | inf : Bool → F32
  | fin : Int → F32
deriving DecidableEq, Repr

def decodeF32 (bits : Nat) : F32 :=
  let s := bits / 2 ^ 31 % 2
  let e := bits / 2 ^ 23 % 2 ^ 8
  let m := bits % 2 ^ 23
  if e = 255 then (if m = 0 then F32.inf (s = 1) else F32.nan)
  else
    let mag : Nat := if e = 0 then m else (2 ^ 23 + m) * 2 ^ (e - 1)
    F32.fin (if s = 1 then -(mag : Int) else (mag : Int))

/-- IEEE greater-than: any comparison against NaN is false; infinities are
signed; finite values compare by exact numerator (negative zero equals
positive zero, numerator 0). -/
def F32.gtF : F32 → F32 → Bool
  | F32.nan, _ => false
  | _, F32.nan => false
  | F32.inf s, F32.inf t => !s && t
  | F32.inf s, F32.fin _ => !s
  | F32.fin _, F32.inf t => t
  | F32.fin x, F32.fin y => y < x

/-! ### Global constants (IrisCodecExtension.hpp) -/

def NULL_OFFSET : Nat := 2 ^ 64 - 1

def NULL_TILE : Nat := 2 ^ 40 - 1

def UINT16_MAX : Nat := 2 ^ 16 - 1

def UINT32_MAX : Nat := 2 ^ 32 - 1

def MAGIC_BYTES : Nat := 0x49726973

def IRIS_EXTENSION_MAJOR : Nat := 1

def IRIS_EXTENSION_MINOR : Nat := 0

def IRIS_EXTENSION_1_0 : Nat := 0x00010000

/-- `IFE_VERSION = IRIS_EXTENSION_MAJOR<<16 | IRIS_EXTENSION_MINOR`. -/
def IFE_VERSION : Nat := IRIS_EXTENSION_MAJOR <<< 16 ||| IRIS_EXTENSION_MINOR

def RECOVER_HEADER : Nat := 0x5501

def RECOVER_TILE_TABLE : Nat := 0x5502

def RECOVER_METADATA : Nat := 0x5504

def RECOVER_ATTRIBUTES : Nat := 0x5505

def RECOVER_LAYER_EXTENTS : Nat := 0x5506

def RECOVER_TILE_OFFSETS : Nat := 0x5507

def RECOVER_ATTRIBUTES_SIZES : Nat := 0x5508

def RECOVER_ATTRIBUTES_BYTES : Nat := 0x5509

def RECOVER_ASSOCIATED_IMAGES : Nat := 0x550A

def RECOVER_ASSOCIATED_IMAGE_BYTES : Nat := 0x550B

def RECOVER_ICC_PROFILE : Nat := 0x550C

def RECOVER_ANNOTATIONS : Nat := 0x550D

def RECOVER_ANNOTATION_BYTES : Nat := 0x550E

def RECOVER_ANNOTATION_GROUP_SIZES : Nat := 0x550F

def RECOVER_ANNOTATION_GROUP_BYTES : Nat := 0x5510

/-! ### Enumerator validators

Modelled from the spec: the enumerator numeric values are declared in
IrisCodecTypes.hpp / IrisTypes.hpp, which are not among this repository
sources.  The spec fixes each accepted set as a closed list with the
undefined value 0 reserved, so the members are numbered 1.. in declaration
order.  The version-2 branch of each validator in the source also returns
false, so the version parameter is unused. -/

def VALIDATE_ENCODING_TYPE (encoding _version : Nat) : Bool :=
  encoding = 1 || encoding = 2 || encoding = 3

def VALIDATE_PIXEL_FORMAT (format _version : Nat) : Bool :=
  format = 1 || format = 2 || format = 3 || format = 4

def VALIDATE_METADATA_TYPE (ty _version : Nat) : Bool :=
  ty = 1 || ty = 2

def VALIDATE_IMAGE_ENCODING_TYPE (encoding _version : Nat) : Bool :=
  encoding = 1 || encoding = 2 || encoding = 3

def VALIDATE_ANNOTATION_TYPE (ty _version : Nat) : Bool :=
  ty = 1 || ty = 2 || ty = 3 || ty = 4

/-! ### DATA_BLOCK -/

/-- A block reader value: `(offset, file size, extension version)`,
mirroring `DATA_BLOCK`. -/
structure DB where
  off : Nat
  fsize : Nat
  ver : Nat
deriving DecidableEq, Repr

/-- `DATA_BLOCK::operator bool`. -/
def DB.ok (d : DB) : Bool := d.off != NULL_OFFSET && decide (d.off < d.fsize)

def hexChar (i : Nat) : Char :=
  (['0', '1', '2', '3', '4', '5', '6', '7', '8', '9',
    'A', 'B', 'C', 'D', 'E', 'F']).getD i '0'

/-- `to_hex_string(uint16_t)`. -/
def hex16 (v : Nat) : String :=
  String.mk ['0', 'x', hexChar (v / 4096 % 16), hexChar (v / 256 % 16),
             hexChar (v / 16 % 16), hexChar (v % 16)]

def DATA_BLOCK.VALIDATION : Nat := 0

def DATA_BLOCK.RECOVERY : Nat := 8

/-- `DATA_BLOCK::validate_offset`. -/
def DATA_BLOCK.validate_offset (base : B) (d : DB) (ty : String) (rec : Nat) :
    Result :=
  if !(d.ok) then
    ⟨IRIS_VALIDATION_FAILURE, "Invalid " ++ ty ++ " object. The " ++ ty ++
      " was not created with a valid offset value."⟩
  else if loadU64 base (d.off + DATA_BLOCK.VALIDATION) ≠ d.off then
    ⟨IRIS_VALIDATION_FAILURE, ty ++
      " failed offset validation. The VALIDATION value (" ++
      toString (loadU64 base (d.off + DATA_BLOCK.VALIDATION)) ++
      ") is not the offset location (" ++ toString d.off ++ ")"⟩
  else if loadU16 base (d.off + DATA_BLOCK.RECOVERY) ≠ rec then
    ⟨IRIS_VALIDATION_FAILURE, "RECOVER_" ++ ty ++ " (" ++ hex16 rec ++
      ") tag failed validation. The tag value is (" ++
      hex16 (loadU16 base (d.off + DATA_BLOCK.RECOVERY)) ++ ")"⟩
  else Result.success

/-! ### FILE_HEADER -/

def FILE_HEADER.MAGIC_BYTES_OFFSET : Nat := 0

def FILE_HEADER.RECOVERY : Nat := 4

def FILE_HEADER.FILE_SIZE : Nat := 6

def FILE_HEADER.EXTENSION_MAJOR : Nat := 14

def FILE_HEADER.EXTENSION_MINOR : Nat := 16

def FILE_HEADER.FILE_REVISION : Nat := 18

def FILE_HEADER.TILE_TABLE_OFFSET : Nat := 22

def FILE_HEADER.METADATA_OFFSET : Nat := 30

def FILE_HEADER.HEADER_V1_0_SIZE : Nat := 38

def fileSizeMismatchMsg (stored given : Nat) : String :=
  "The internally stored Iris file size (" ++ toString stored ++
  " bytes) differs from that provided by the operating system (" ++
  toString given ++ " bytes). This failure requires file recovery."

def versionWarningMsg (major minor : Nat) : String :=
  "This Iris Extension Version (" ++ toString IRIS_EXTENSION_MAJOR ++ "." ++
  toString IRIS_EXTENSION_MINOR ++
  ") is is less than the extension version used to generate the slide file (" ++
  toString major ++ "." ++ toString minor ++
  "). This may limit additional features encoded in the file by restricting decoding to only those present in the current encoder version " ++
  toString IRIS_EXTENSION_MAJOR ++ "." ++ toString IRIS_EXTENSION_MINOR ++
  ". Please upgrade your implementation of the standard to access the full set of parameters encoded in this slide file."

/-- `FILE_HEADER::validate_header`.  The header block sits at offset 0
(`HEADER_OFFSET`), so `operator bool` reduces to `0 < fsize`.  NOTE: the
source computes a warning `Result` when the stored extension version
exceeds the reader version but then executes `return IRIS_SUCCESS`,
discarding the warning; the discarded value is kept here as `_warn`. -/
def FILE_HEADER.validate_header (base : B) (fsize : Nat) : Result :=
  if fsize = 0 then
    ⟨IRIS_VALIDATION_FAILURE, "Invalid file header size. The header must be created with the OS returned file size."⟩
  else if loadU32 base FILE_HEADER.MAGIC_BYTES_OFFSET ≠ MAGIC_BYTES then
    ⟨IRIS_FAILURE, "Iris File Magic Number failed validation"⟩
  else if loadU16 base FILE_HEADER.RECOVERY ≠ RECOVER_HEADER then
    ⟨IRIS_VALIDATION_FAILURE, "RECOVER_HEADER (" ++ toString RECOVER_HEADER ++
      ") tag failed validation. The tag value is (" ++
      toString (loadU16 base FILE_HEADER.RECOVERY) ++ ")"⟩
  else if loadU64 base FILE_HEADER.FILE_SIZE ≠ fsize then
    ⟨IRIS_VALIDATION_FAILURE,
      fileSizeMismatchMsg (loadU64 base FILE_HEADER.FILE_SIZE) fsize⟩
  else
    let major := loadU32 base FILE_HEADER.EXTENSION_MAJOR % 65536
    let minor := loadU32 base FILE_HEADER.EXTENSION_MINOR % 65536
    let _warn : Result :=
      if major > IRIS_EXTENSION_MAJOR ∨ minor > IRIS_EXTENSION_MINOR then
        ⟨IRIS_WARNING_VALIDATION, versionWarningMsg major minor⟩
      else Result.success
    ⟨IRIS_SUCCESS, ""⟩

/-! ### LAYER_EXTENTS -/

def LAYER_EXTENT.X_TILES : Nat := 0

def LAYER_EXTENT.Y_TILES : Nat := 4

def LAYER_EXTENT.SCALE : Nat := 8

def LAYER_EXTENT.SIZE : Nat := 12

def LAYER_EXTENTS.ENTRY_SIZE : Nat := 10

def LAYER_EXTENTS.ENTRY_NUMBER : Nat := 12

def LAYER_EXTENTS.HEADER_V1_0_SIZE : Nat := 16

def LAYER_EXTENTS.validate_offset (base : B) (d : DB) : Result :=
  DATA_BLOCK.validate_offset base d "LAYER_EXTENTS" RECOVER_LAYER_EXTENTS

def layerExtentsBoundsMsg (lo hi : Nat) : String :=
  "LAYER_EXTENTS failed validation -- bytes block (" ++ toString lo ++ "-" ++
  toString hi ++ "bytes) extends beyond the end of the file."

def layerXTilesMsg (li : Nat) : String :=
  "LAYER_EXTENTS [" ++ toString li ++
  "] failed validation. Per the IFE specifciation Section 2.4.1, the X-tiles shall encode the number of 256 pixel tiles in the horizontal direction and shall be greater than zero"

def layerYTilesMsg (li : Nat) : String :=
  "LAYER_EXTENTS [" ++ toString li ++
  "] failed validation. Per the IFE specifciation Section 2.4.1, the Y-tiles shall encode the number of 256 pixel tiles in the vertical direction and shall be greater than zero"

def layerScaleMsg (li : Nat) : String :=
  "LAYER_EXTENTS [" ++ toString li ++
  "] failed validation. Per the IFE specifciation Section 2.4.1, the scale of a layer shall have a value greater than zero (0.f) and any subsequent layer shall have a scale that is greater than the previous scale"

/-- The per-entry loop of `LAYER_EXTENTS::validate_full`: `arr` is the
running array pointer, `li` the current index, `n` the entries left and
`prior` the previous scale (`0.f` initially). -/
def LAYER_EXTENTS.loop (base : B) (step : Nat) :
    Nat → Nat → Nat → F32 → Result
  | _arr, _li, 0, _prior => Result.success
  | arr, li, n + 1, prior =>
    if loadU32 base (arr + LAYER_EXTENT.X_TILES) < 1 then
      ⟨IRIS_FAILURE, layerXTilesMsg li⟩
    else if loadU32 base (arr + LAYER_EXTENT.Y_TILES) < 1 then
      ⟨IRIS_FAILURE, layerYTilesMsg li⟩
    else if !(F32.gtF (decodeF32 (loadU32 base (arr + LAYER_EXTENT.SCALE))) prior) then
      ⟨IRIS_FAILURE, layerScaleMsg li⟩
    else
      LAYER_EXTENTS.loop base step (arr + step) (li + 1) n
        (decodeF32 (loadU32 base (arr + LAYER_EXTENT.SCALE)))

/-- `LAYER_EXTENTS::validate_full`. -/
def LAYER_EXTENTS.validate_full (base : B) (d : DB) : Result :=
  let result := LAYER_EXTENTS.validate_offset base d
  if result.flag ≠ IRIS_SUCCESS then result
  else
    let step := loadU16 base (d.off + LAYER_EXTENTS.ENTRY_SIZE)
    let entries := loadU32 base (d.off + LAYER_EXTENTS.ENTRY_NUMBER)
    let start := d.off + LAYER_EXTENTS.HEADER_V1_0_SIZE
    if start + entries * step > d.fsize then
      ⟨IRIS_FAILURE, layerExtentsBoundsMsg start (start + entries * step)⟩
    else LAYER_EXTENTS.loop base step start 0 entries (F32.fin 0)

/-! ### TILE_OFFSETS -/

def TILE_OFFSET.OFFSET : Nat := 0

def TILE_OFFSET.TILE_SIZE : Nat := 5

def TILE_OFFSET.SIZE : Nat := 8

def TILE_OFFSETS.ENTRY_SIZE : Nat := 10

def TILE_OFFSETS.ENTRY_NUMBER : Nat := 12

def TILE_OFFSETS.HEADER_V1_0_SIZE : Nat := 16

def TILE_OFFSETS.validate_offset (base : B) (d : DB) : Result :=
  DATA_BLOCK.validate_offset base d "TILE_OFFSETS" RECOVER_TILE_OFFSETS

def tileOffsetsBoundsMsg (lo hi : Nat) : String :=
  "TILE_OFFSETS failed validation -- bytes block (" ++ toString lo ++ "-" ++
  toString hi ++ "bytes) extends beyond the end of the file."

def tileEntryOobMsg (ti fsize : Nat) : String :=
  "TILE_OFFSETS validation failed -- global tile entry (" ++ toString ti ++
  ") failed with the tile data block (offset + size size) extending out of the file bounds (" ++
  toString fsize ++ "bytes)."

/-- The per-entry loop of `TILE_OFFSETS::validate_full`.  NOTE: the source
has no `NULL_TILE` special case here: every entry, sparse or not, is
subjected to `offset + size > file_size`. -/
def TILE_OFFSETS.loop (base : B) (fsize step : Nat) (result : Result) :
    Nat → Nat → Nat → Result
  | _arr, _ti, 0 => result
  | arr, ti, n + 1 =>
    if loadU40 base (arr + TILE_OFFSET.OFFSET) +
        loadU24 base (arr + TILE_OFFSET.TILE_SIZE) > fsize then
      ⟨IRIS_FAILURE, tileEntryOobMsg ti fsize⟩
    else TILE_OFFSETS.loop base fsize step result (arr + step) (ti + 1) n

/-- `TILE_OFFSETS::validate_full`. -/
def TILE_OFFSETS.validate_full (base : B) (d : DB) : Result :=
  let result := TILE_OFFSETS.validate_offset base d
  if result.hasFlag IRIS_FAILURE then result
  else
    let step := loadU16 base (d.off + TILE_OFFSETS.ENTRY_SIZE)
    let entries := loadU32 base (d.off + TILE_OFFSETS.ENTRY_NUMBER)
    let start := d.off + TILE_OFFSETS.HEADER_V1_0_SIZE
    if start + entries * step > d.fsize then
      ⟨IRIS_FAILURE, tileOffsetsBoundsMsg start (start + entries * step)⟩
    else TILE_OFFSETS.loop base d.fsize step Result.success start 0 entries

/-! ### TILE_TABLE -/

def TILE_TABLE.ENCODING : Nat := 10

def TILE_TABLE.FORMAT : Nat := 11

def TILE_TABLE.CIPHER_OFFSET : Nat := 12

def TILE_TABLE.TILE_OFFSETS_OFFSET : Nat := 20

def TILE_TABLE.LAYER_EXTENTS_OFFSET : Nat := 28

def TILE_TABLE.X_EXTENT : Nat := 36

def TILE_TABLE.Y_EXTENT : Nat := 40

def TILE_TABLE.HEADER_V1_0_SIZE : Nat := 44

def TILE_TABLE.validate_offset (base : B) (d : DB) : Result :=
  DATA_BLOCK.validate_offset base d "TILE_TABLE" RECOVER_TILE_TABLE

def tileTableEncodingMsg (v : Nat) : String :=
  "Undefined tile encoding value (" ++ hex16 v ++
  ") decoded from tile table. Per the IFE specification Section 2.3.2, enumeration shall refer to the algorithm / specification used to compress the slide tile data and be one of the enumerated values (Enumeration 2.2.3), excluding the undefined value (0)"

def tileTableFormatMsg (v : Nat) : String :=
  "Undefined tile pixel format (" ++ hex16 v ++
  ") decoded from tile table. Per the IFE specification Section 2.3.2, the format shall describe the pixel channel ordering and bits consumed per channel per the accepted norm using one of the defined enumerated values (Enumeration 2.2.4), excluding the undefined value (0)."

/-- `TILE_TABLE::validate_full`.  The child validations are guarded with
`result & IRIS_VALIDATION_FAILURE` in the source. -/
def TILE_TABLE.validate_full (base : B) (d : DB) : Result :=
  let result := TILE_TABLE.validate_offset base d
  if result.hasFlag IRIS_FAILURE then result
  else if !(VALIDATE_ENCODING_TYPE (loadU8 base (d.off + TILE_TABLE.ENCODING)) d.ver) then
    ⟨IRIS_VALIDATION_FAILURE,
      tileTableEncodingMsg (loadU8 base (d.off + TILE_TABLE.ENCODING))⟩
  else if !(VALIDATE_PIXEL_FORMAT (loadU8 base (d.off + TILE_TABLE.FORMAT)) d.ver) then
    ⟨IRIS_VALIDATION_FAILURE,
      tileTableFormatMsg (loadU8 base (d.off + TILE_TABLE.FORMAT))⟩
  else
    let r1 := LAYER_EXTENTS.validate_full base
      ⟨loadU64 base (d.off + TILE_TABLE.LAYER_EXTENTS_OFFSET), d.fsize, d.ver⟩
    if r1.hasFlag IRIS_VALIDATION_FAILURE then r1
    else
      let r2 := TILE_OFFSETS.validate_full base
        ⟨loadU64 base (d.off + TILE_TABLE.TILE_OFFSETS_OFFSET), d.fsize, d.ver⟩
      if r2.hasFlag IRIS_VALIDATION_FAILURE then r2
      else Result.success

/-! ### ATTRIBUTES_SIZES / ATTRIBUTES_BYTES -/

def ATTRIBUTE_SIZE.KEY_SIZE : Nat := 0

def ATTRIBUTE_SIZE.VALUE_SIZE : Nat := 2

def ATTRIBUTE_SIZE.SIZE : Nat := 6

def ATTRIBUTES_SIZES.ENTRY_SIZE : Nat := 10

def ATTRIBUTES_SIZES.ENTRY_NUMBER : Nat := 12

def ATTRIBUTES_SIZES.HEADER_V1_0_SIZE : Nat := 16

def ATTRIBUTES_SIZES.validate_offset (base : B) (d : DB) : Result :=
  DATA_BLOCK.validate_offset base d "ATTRIBUTES_SIZES" RECOVER_ATTRIBUTES_SIZES

def attrSizesBoundsMsg (lo hi : Nat) : String :=
  "ATTRIBUTES_SIZES failed validation -- sizes array block (location " ++
  toString lo ++ " - " ++ toString hi ++ " bytes) extends beyond the end of file."

/-- The accumulation loop of `ATTRIBUTES_SIZES::validate_full`: sums
`key_size + value_size` from the advancing array pointer. -/
def ATTRIBUTES_SIZES.sumLoop (base : B) (step : Nat) : Nat → Nat → Nat
  | _arr, 0 => 0
  | arr, n + 1 =>
    loadU16 base (arr + ATTRIBUTE_SIZE.KEY_SIZE) +
    loadU32 base (arr + ATTRIBUTE_SIZE.VALUE_SIZE) +
    ATTRIBUTES_SIZES.sumLoop base step (arr + step) n

/-- `ATTRIBUTES_SIZES::validate_full`; the second component is the
`expected_bytes` out-parameter (0 on the failure paths, where the source
leaves it unset). -/
def ATTRIBUTES_SIZES.validate_full (base : B) (d : DB) : Result × Nat :=
  let result := ATTRIBUTES_SIZES.validate_offset base d
  if result.hasFlag IRIS_FAILURE then (result, 0)
  else
    let step := loadU16 base (d.off + ATTRIBUTES_SIZES.ENTRY_SIZE)
    let entries := loadU32 base (d.off + ATTRIBUTES_SIZES.ENTRY_NUMBER)
    let start := d.off + ATTRIBUTES_SIZES.HEADER_V1_0_SIZE
    if start + entries * step > d.fsize then
      (⟨IRIS_FAILURE, attrSizesBoundsMsg start (start + entries * step)⟩, 0)
    else (Result.success, ATTRIBUTES_SIZES.sumLoop base step start entries)

def ATTRIBUTES_BYTES.ENTRY_NUMBER : Nat := 10

def ATTRIBUTES_BYTES.HEADER_V1_0_SIZE : Nat := 14

def ATTRIBUTES_BYTES.validate_offset (base : B) (d : DB) : Result :=
  DATA_BLOCK.validate_offset base d "ATTRIBUTES_BYTES" RECOVER_ATTRIBUTES_BYTES

def attrBytesMismatchMsg (expected bytes : Nat) : String :=
  "ATTRIBUTES_BYTES failed validation -- expected bytes (" ++
  toString expected ++
  ") from ATTRIBUTES_SIZES array does not match the byte size of the ATTRIBUTES_BYTES block (" ++
  toString bytes ++ ")"

def attrBytesBoundsMsg (lo hi : Nat) : String :=
  "ATTRIBUTES_BYTES failed validation -- full attributes byte array block (location " ++
  toString lo ++ " - " ++ toString hi ++ ") extends beyond end of file."

/-- `ATTRIBUTES_BYTES::validate_full(base, expected)`. -/
def ATTRIBUTES_BYTES.validate_full (base : B) (d : DB) (expected : Nat) : Result :=
  let result := ATTRIBUTES_BYTES.validate_offset base d
  if result.hasFlag IRIS_FAILURE then result
  else
    let bytes := loadU32 base (d.off + ATTRIBUTES_BYTES.ENTRY_NUMBER)
    if bytes ≠ expected then ⟨IRIS_FAILURE, attrBytesMismatchMsg expected bytes⟩
    else if d.off + bytes > d.fsize then
      ⟨IRIS_FAILURE, attrBytesBoundsMsg d.off (d.off + bytes)⟩
    else Result.success

/-! ### ATTRIBUTES -/

def ATTRIBUTES.FORMAT : Nat := 10

def ATTRIBUTES.VERSION : Nat := 11

def ATTRIBUTES.LENGTHS_OFFSET : Nat := 13

def ATTRIBUTES.BYTE_ARRAY_OFFSET : Nat := 21

def ATTRIBUTES.HEADER_V1_0_SIZE : Nat := 29

def ATTRIBUTES.validate_offset (base : B) (d : DB) : Result :=
  DATA_BLOCK.validate_offset base d "ATTRIBUTES" RECOVER_ATTRIBUTES

def attrFormatMsg (v : Nat) : String :=
  "Undefined tile metadata format (" ++ toString v ++
  ") decoded from attributes header. Per the IFE specification Section 2.3.5, The metadata format shall refer to the metadata specification format by which the file metadata was encoded and shall be one of the metadata formats (Enumeration 2.2.5), excluding the undefined value (0)."

/-- `ATTRIBUTES::validate_full`. -/
def ATTRIBUTES.validate_full (base : B) (d : DB) : Result :=
  let result := ATTRIBUTES.validate_offset base d
  if result.hasFlag IRIS_FAILURE then result
  else if !(VALIDATE_METADATA_TYPE (loadU8 base (d.off + ATTRIBUTES.FORMAT)) d.ver) then
    ⟨IRIS_FAILURE, attrFormatMsg (loadU8 base (d.off + ATTRIBUTES.FORMAT))⟩
  else
    let sizes := ATTRIBUTES_SIZES.validate_full base
      ⟨loadU64 base (d.off + ATTRIBUTES.LENGTHS_OFFSET), d.fsize, d.ver⟩
    if sizes.1.hasFlag IRIS_FAILURE then sizes.1
    else
      let rb := ATTRIBUTES_BYTES.validate_full base
        ⟨loadU64 base (d.off + ATTRIBUTES.BYTE_ARRAY_OFFSET), d.fsize, d.ver⟩
        sizes.2
      rb

/-! ### IMAGE_ARRAY / IMAGE_BYTES -/

def IMAGE_ENTRY.BYTES_OFFSET : Nat := 0

def IMAGE_ENTRY.WIDTH : Nat := 8

def IMAGE_ENTRY.HEIGHT : Nat := 12

def IMAGE_ENTRY.ENCODING : Nat := 16

def IMAGE_ENTRY.FORMAT : Nat := 17

def IMAGE_ENTRY.ORIENTATION : Nat := 18

def IMAGE_ENTRY.SIZE : Nat := 20

def IMAGE_BYTES.TITLE_SIZE : Nat := 10

def IMAGE_BYTES.IMAGE_SIZE : Nat := 12

def IMAGE_BYTES.HEADER_V1_0_SIZE : Nat := 16

def IMAGE_BYTES.validate_offset (base : B) (d : DB) : Result :=
  DATA_BLOCK.validate_offset base d "IMAGE_BYTES" RECOVER_ASSOCIATED_IMAGE_BYTES

def imageBytesBoundsMsg (lo hi : Nat) : String :=
  "Associated image IMAGE_BYTES failed validation -- image bytes array block (location " ++
  toString lo ++ " - " ++ toString hi ++ " bytes) extends beyond the end of file."

/-- `IMAGE_BYTES::validate_full`. -/
def IMAGE_BYTES.validate_full (base : B) (d : DB) : Result :=
  let result := IMAGE_BYTES.validate_offset base d
  if result.hasFlag IRIS_FAILURE then result
  else
    let title := loadU16 base (d.off + IMAGE_BYTES.TITLE_SIZE)
    let bytes := loadU32 base (d.off + IMAGE_BYTES.IMAGE_SIZE)
    if title = 0 ∨ title > UINT16_MAX then
      ⟨IRIS_VALIDATION_FAILURE, "Associated image title failed validation due to length. Per IFE Section 2.4.7, title size shall encode a size, in bytes, greater than zero but shorter in length than the 16-bit max of a valid and unique image title / label"⟩
    else if bytes = 0 ∨ bytes > UINT32_MAX then
      ⟨IRIS_VALIDATION_FAILURE, "Associated image bytes failed validation due to length. Per IFE Section 2.4.7, image size shall encode a size, in bytes, greater than zero bytes but less than the 32-bit max (4.29 GB) of a valid encoded image byte stream"⟩
    else if d.off + title + bytes > d.fsize then
      ⟨IRIS_FAILURE, imageBytesBoundsMsg d.off (d.off + title + bytes)⟩
    else result

def IMAGE_ARRAY.ENTRY_SIZE : Nat := 10

def IMAGE_ARRAY.ENTRY_NUMBER : Nat := 12

def IMAGE_ARRAY.HEADER_V1_0_SIZE : Nat := 16

def IMAGE_ARRAY.validate_offset (base : B) (d : DB) : Result :=
  DATA_BLOCK.validate_offset base d "IMAGE_ARRAY" RECOVER_ASSOCIATED_IMAGES

def imageArrayEncodingMsg (v : Nat) : String :=
  "Undefined tile associated image encoding (" ++ toString v ++
  ") decoded from associated image array. Per the IFE specification Section 2.4.6, the encoding parameter shall describe the compression codec used to generate the compressed image byte stream and shall be one of the defined enumerated values (Enumeration 2.2.7), excluding the undefined value (0)"

def imageArrayFormatMsg (v : Nat) : String :=
  "Undefined tile associated image pixel format (" ++ toString v ++
  ") decoded from associated image array. Per the IFE specification Section 2.4.6,  format parameter shall describe the pixel channel ordering and bits consumed per channel using one of the defined enumerated values (Enumeration 2.2.4), excluding the undefined value (0)"

/-- The per-entry loop of `IMAGE_ARRAY::validate_full`.  NOTE: the source
calls `validate_offset` and `validate_full` on each IMAGE_BYTES child and
discards both results; the discarded values are kept as `_v1`, `_v2`. -/
def IMAGE_ARRAY.loop (base : B) (fsize ver step : Nat) (result : Result) :
    Nat → Nat → Result
  | _arr, 0 => result
  | arr, n + 1 =>
    let _v1 := IMAGE_BYTES.validate_offset base
      ⟨loadU64 base (arr + IMAGE_ENTRY.BYTES_OFFSET), fsize, ver⟩
    let _v2 := IMAGE_BYTES.validate_full base
      ⟨loadU64 base (arr + IMAGE_ENTRY.BYTES_OFFSET), fsize, ver⟩
    if !(VALIDATE_IMAGE_ENCODING_TYPE (loadU8 base (arr + IMAGE_ENTRY.ENCODING)) ver) then
      ⟨IRIS_FAILURE, imageArrayEncodingMsg (loadU8 base (arr + IMAGE_ENTRY.ENCODING))⟩
    else if !(VALIDATE_PIXEL_FORMAT (loadU8 base (arr + IMAGE_ENTRY.FORMAT)) ver) then
      ⟨IRIS_FAILURE, imageArrayFormatMsg (loadU8 base (arr + IMAGE_ENTRY.FORMAT))⟩
    else IMAGE_ARRAY.loop base fsize ver step result (arr + step) n

/-- `IMAGE_ARRAY::validate_full` (no bounds check on the entry array
itself before the loop, as in the source). -/
def IMAGE_ARRAY.validate_full (base : B) (d : DB) : Result :=
  let result := IMAGE_ARRAY.validate_offset base d
  if result.hasFlag IRIS_FAILURE then result
  else
    let step := loadU16 base (d.off + IMAGE_ARRAY.ENTRY_SIZE)
    let entries := loadU32 base (d.off + IMAGE_ARRAY.ENTRY_NUMBER)
    let start := d.off + IMAGE_ARRAY.HEADER_V1_0_SIZE
    IMAGE_ARRAY.loop base d.fsize d.ver step result start entries

/-! ### ICC_PROFILE -/

def ICC_PROFILE.ENTRY_NUMBER : Nat := 10

def ICC_PROFILE.HEADER_V1_0_SIZE : Nat := 14

def ICC_PROFILE.validate_offset (base : B) (d : DB) : Result :=
  DATA_BLOCK.validate_offset base d "ICC_PROFILE" RECOVER_ICC_PROFILE

def iccBoundsMsg (lo hi : Nat) : String :=
  "ICC_PROFILE failed validation -- bytes block (" ++ toString lo ++ "-" ++
  toString hi ++ "bytes) extends beyond the end of the file."

/-- `ICC_PROFILE::validate_full`. -/
def ICC_PROFILE.validate_full (base : B) (d : DB) : Result :=
  let result := ICC_PROFILE.validate_offset base d
  if result.hasFlag IRIS_FAILURE then result
  else
    let bytes := loadU32 base (d.off + ICC_PROFILE.ENTRY_NUMBER)
    let start := d.off + ICC_PROFILE.HEADER_V1_0_SIZE
    if start + bytes > d.fsize then
      ⟨IRIS_FAILURE, iccBoundsMsg start (start + bytes)⟩
    else result

def iccReadBoundsMsg (lo hi : Nat) : String :=
  "ICC_PROFILE::read_profile failed -- bytes block (" ++ toString lo ++ "-" ++
  toString hi ++ "bytes) extends beyond the end of the file."

/-- `ICC_PROFILE::read_profile`: returns a copy of the stored bytes. -/
def ICC_PROFILE.read_profile (base : B) (d : DB) : Except String (List Nat) :=
  let bytes := loadU32 base (d.off + ICC_PROFILE.ENTRY_NUMBER)
  let start := d.off + ICC_PROFILE.HEADER_V1_0_SIZE
  if start + bytes > d.fsize then
    .error (iccReadBoundsMsg start (start + bytes))
  else .ok (readBytes base start bytes)

/-- `STORE_ICC_COLOR_PROFILE`.  NOTE: the source stores the entry-count
field with `STORE_U16` although the field is a u32 and the stored value is
`U32_CAST(color_profile.size())`; only the low two bytes of the length are
written. -/
def STORE_ICC_COLOR_PROFILE (base : B) (offset : Nat) (profile : List Nat) :
    Except String B :=
  if offset = NULL_OFFSET then
    .error "Failed to store associated image bytes -- NULL_OFFSET provided as location"
  else if profile.length > UINT32_MAX then
    .error "Failed to store associated image bytes -- profile too long. Per the IFE specification Section 2.4.8, an ICC color profile shall be shorter in length than the 32-bit max (4.29GB)."
  else
    let b1 := storeU64 base (offset + DATA_BLOCK.VALIDATION) offset
    let b2 := storeU16 b1 (offset + DATA_BLOCK.RECOVERY) RECOVER_ICC_PROFILE
    let b3 := storeU16 b2 (offset + ICC_PROFILE.ENTRY_NUMBER)
      (profile.length % 2 ^ 32)
    .ok (memcpyB b3 (offset + ICC_PROFILE.HEADER_V1_0_SIZE) profile profile.length)

/-! ### ANNOTATION_BYTES and annotation groups -/

def ANNOTATION_ENTRY.IDENTIFIER : Nat := 0

def ANNOTATION_ENTRY.BYTES_OFFSET : Nat := 3

def ANNOTATION_ENTRY.FORMAT : Nat := 11

def ANNOTATION_ENTRY.X_LOCATION : Nat := 12

def ANNOTATION_ENTRY.Y_LOCATION : Nat := 16

def ANNOTATION_ENTRY.X_SIZE : Nat := 20

def ANNOTATION_ENTRY.Y_SIZE : Nat := 24

def ANNOTATION_ENTRY.WIDTH : Nat := 28

def ANNOTATION_ENTRY.HEIGHT : Nat := 32

def ANNOTATION_ENTRY.PARENT : Nat := 36

def ANNOTATION_ENTRY.SIZE : Nat := 39

def ANNOTATION_BYTES.ENTRY_NUMBER : Nat := 10

def ANNOTATION_BYTES.HEADER_V1_0_SIZE : Nat := 14

def ANNOTATION_BYTES.validate_offset (base : B) (d : DB) : Result :=
  DATA_BLOCK.validate_offset base d "ANNOTATION_BYTES" RECOVER_ANNOTATION_BYTES

def abReadBoundsMsg (lo hi : Nat) : String :=
  "ANNOTATION_BYTES::read_bytes failed validation -- bytes block (" ++
  toString lo ++ "-" ++ toString hi ++
  "bytes) extends beyond the end of the file."

/-- `ANNOTATION_BYTES::read_bytes`: fills `annotation.byteSize` and
`annotation.offset`; returned here as the pair `(byteSize, offset)`. -/
def ANNOTATION_BYTES.read_bytes (base : B) (d : DB) :
    Except String (Nat × Nat) :=
  let byteSize := loadU32 base (d.off + ANNOTATION_BYTES.ENTRY_NUMBER)
  let start := d.off + ANNOTATION_BYTES.HEADER_V1_0_SIZE
  if start + byteSize > d.fsize then
    .error (abReadBoundsMsg start (start + byteSize))
  else .ok (byteSize, start)

def ANNOTATION_GROUP_SIZE.LABEL_SIZE : Nat := 0

def ANNOTATION_GROUP_SIZE.ENTRIES_NUMBER : Nat := 2

def ANNOTATION_GROUP_SIZE.SIZE : Nat := 6

def TYPE_SIZE_UINT24 : Nat := 3

def ANNOTATION_GROUP_SIZES.ENTRY_SIZE : Nat := 10

def ANNOTATION_GROUP_SIZES.ENTRY_NUMBER : Nat := 12

def ANNOTATION_GROUP_SIZES.HEADER_V1_0_SIZE : Nat := 16

def ANNOTATION_GROUP_SIZES.validate_offset (base : B) (d : DB) : Result :=
  DATA_BLOCK.validate_offset base d "ANNOTATION_GROUP_SIZES"
    RECOVER_ANNOTATION_GROUP_SIZES

def groupSizesBoundsMsg (lo hi : Nat) : String :=
  "ANNOTATION_GROUP_SIZES failed validation -- sizes array block (location " ++
  toString lo ++ " - " ++ toString hi ++ " bytes) extends beyond the end of file."

/-- The accumulation loop of `ANNOTATION_GROUP_SIZES::validate_full`.
NOTE: the source reads both fields through `__ptr` (the block start), not
through the advancing `__array` pointer, so every iteration adds the same
quantity taken from the block prologue bytes. -/
def ANNOTATION_GROUP_SIZES.sumLoop (base : B) (blockOff : Nat) :
    Nat → Nat → Nat
  | 0, acc => acc
  | n + 1, acc =>
    ANNOTATION_GROUP_SIZES.sumLoop base blockOff n
      (acc + loadU16 base (blockOff + ANNOTATION_GROUP_SIZE.LABEL_SIZE) +
        loadU24 base (blockOff + ANNOTATION_GROUP_SIZE.ENTRIES_NUMBER) *
          TYPE_SIZE_UINT24)

/-- `ANNOTATION_GROUP_SIZES::validate_full`; second component is the
`expected_bytes` out-parameter. -/
def ANNOTATION_GROUP_SIZES.validate_full (base : B) (d : DB) : Result × Nat :=
  let result := ANNOTATION_GROUP_SIZES.validate_offset base d
  if result.hasFlag IRIS_FAILURE then (result, 0)
  else
    let step := loadU16 base (d.off + ANNOTATION_GROUP_SIZES.ENTRY_SIZE)
    let entries := loadU32 base (d.off + ANNOTATION_GROUP_SIZES.ENTRY_NUMBER)
    let start := d.off + ANNOTATION_GROUP_SIZES.HEADER_V1_0_SIZE
    if start + entries * step > d.fsize then
      (⟨IRIS_FAILURE, groupSizesBoundsMsg start (start + entries * step)⟩, 0)
    else (result, ANNOTATION_GROUP_SIZES.sumLoop base d.off entries 0)

def groupSizesReadBoundsMsg (lo hi : Nat) : String :=
  "ANNOTATION_GROUP_SIZES failed -- sizes array block (location " ++
  toString lo ++ " - " ++ toString hi ++ " bytes) extends beyond the end of file."

/-- `ANNOTATION_GROUP_SIZES::read_group_sizes`.  NOTE: the source also
reads each entry through `__ptr` (the block start), so every returned pair
is the same prologue-derived value. -/
def ANNOTATION_GROUP_SIZES.read_group_sizes (base : B) (d : DB) :
    Except String (List (Nat × Nat)) :=
  let step := loadU16 base (d.off + ANNOTATION_GROUP_SIZES.ENTRY_SIZE)
  let entries := loadU32 base (d.off + ANNOTATION_GROUP_SIZES.ENTRY_NUMBER)
  let start := d.off + ANNOTATION_GROUP_SIZES.HEADER_V1_0_SIZE
  if start + entries * step > d.fsize then
    .error (groupSizesReadBoundsMsg start (start + entries * step))
  else
    .ok (List.replicate entries
      (loadU16 base (d.off + ANNOTATION_GROUP_SIZE.LABEL_SIZE),
       loadU32 base (d.off + ANNOTATION_GROUP_SIZE.ENTRIES_NUMBER)))

def ANNOTATION_GROUP_BYTES.ENTRY_NUMBER : Nat := 10

def ANNOTATION_GROUP_BYTES.HEADER_V1_0_SIZE : Nat := 14

def ANNOTATION_GROUP_BYTES.validate_offset (base : B) (d : DB) : Result :=
  DATA_BLOCK.validate_offset base d "ANNOTATION_GROUP_BYTES"
    RECOVER_ANNOTATION_GROUP_BYTES

def groupBytesMismatchMsg (expected bytes : Nat) : String :=
  "ANNOTATION_GROUP_BYTES failed validation -- expected bytes (" ++
  toString expected ++
  ") from ANNOTATIONS array does not match the byte size of the ANNOTATION_GROUP_BYTES block (" ++
  toString bytes ++ ")"

def groupBytesBoundsMsg (lo hi : Nat) : String :=
  "ANNOTATION_GROUP_BYTES failed validation -- full attributes byte array block (location " ++
  toString lo ++ " - " ++ toString hi ++ ") extends beyond end of file."

/-- `ANNOTATION_GROUP_BYTES::validate_full(base, expected_bytes)`.  NOTE:
unlike every other `validate_full`, the source performs no
`validate_offset` call: the block prologue is never examined. -/
def ANNOTATION_GROUP_BYTES.validate_full (base : B) (d : DB)
    (expected : Nat) : Result :=
  let bytes := loadU32 base (d.off + ANNOTATION_GROUP_BYTES.ENTRY_NUMBER)
  if bytes ≠ expected then ⟨IRIS_FAILURE, groupBytesMismatchMsg expected bytes⟩
  else if d.off + bytes > d.fsize then
    ⟨IRIS_FAILURE, groupBytesBoundsMsg d.off (d.off + bytes)⟩
  else Result.success

/-! ### ANNOTATIONS -/

def ANNOTATIONS.ENTRY_SIZE : Nat := 10

def ANNOTATIONS.ENTRY_NUMBER : Nat := 12

def ANNOTATIONS.GROUP_SIZES_OFFSET : Nat := 16

def ANNOTATIONS.GROUP_BYTES_OFFSET : Nat := 24

def ANNOTATIONS.HEADER_V1_0_SIZE : Nat := 32

def ANNOTATIONS.validate_offset (base : B) (d : DB) : Result :=
  DATA_BLOCK.validate_offset base d "ANNOTATIONS" RECOVER_ANNOTATIONS

/-- `ANNOTATIONS::groups`: true iff both group offsets are non-null and in
range (these loads do use the block offset). -/
def ANNOTATIONS.groups (base : B) (d : DB) : Bool :=
  let sizesOff := loadU64 base (d.off + ANNOTATIONS.GROUP_SIZES_OFFSET)
  let bytesOff := loadU64 base (d.off + ANNOTATIONS.GROUP_BYTES_OFFSET)
  sizesOff != NULL_OFFSET && decide (sizesOff < d.fsize) &&
  (bytesOff != NULL_OFFSET && decide (bytesOff < d.fsize))

def annBoundsMsg (lo hi : Nat) : String :=
  "ANNOTATIONS::read_annotations failed validation -- bytes block (" ++
  toString lo ++ "-" ++ toString hi ++
  "bytes) extends beyond the end of the file."

def annNullOffsetMsg : String :=
  "Failed ANNOTATION_ARRAY::read_annotations -- annotation entry contains invalid offset. Per the IFE Specification, the bytes offset shall be a valid offset location that point to the corresponding attribute objects attributes bytes array (Section 2.4.5)."

def annOobMsg (v : Nat) : String :=
  "Failed ANNOTATION_ARRAY::read_annotations -- annotation entry contains an offset that is out of file bounds(" ++
  toString v ++
  "). Per the IFE Specification, the bytes offset shall be a valid offset location that point to the corresponding attribute objects attributes bytes array (Section 2.4.5)."

def annFormatMsg (v : Nat) : String :=
  "Undefined tile pixel format (" ++ toString v ++
  ") decoded from tile table."

/-- The per-entry loop of `ANNOTATIONS::validate_full`.  NOTE: the source
reads the entry bytes-offset at `__array + IMAGE_ENTRY::BYTES_OFFSET`
(offset 0, not the ANNOTATION_ENTRY constant), discards the
ANNOTATION_BYTES `validate_offset` result, reads the identifier and the
format byte through `__ptr` (the block start, kept here as `blockOff`),
and tests duplicate identifiers against a set that is never populated. -/
def ANNOTATIONS.vloop (base : B) (blockOff fsize ver step : Nat)
    (result : Result) : Nat → Nat → Result
  | _arr, 0 => result
  | arr, n + 1 =>
    let bytesOffset := loadU64 base (arr + IMAGE_ENTRY.BYTES_OFFSET)
    if bytesOffset = NULL_OFFSET then ⟨IRIS_FAILURE, annNullOffsetMsg⟩
    else if bytesOffset > fsize then ⟨IRIS_FAILURE, annOobMsg bytesOffset⟩
    else
      let _v := ANNOTATION_BYTES.validate_offset base ⟨bytesOffset, fsize, ver⟩
      let _identifier := loadU24 base (blockOff + ANNOTATION_ENTRY.IDENTIFIER)
      if !(VALIDATE_ANNOTATION_TYPE
          (loadU8 base (blockOff + ANNOTATION_ENTRY.FORMAT)) ver) then
        ⟨IRIS_FAILURE, annFormatMsg (loadU8 base (blockOff + ANNOTATION_ENTRY.FORMAT))⟩
      else ANNOTATIONS.vloop base blockOff fsize ver step result (arr + step) n

/-- `ANNOTATIONS::validate_full`.  NOTE: the source loads the two group
offsets from the absolute file positions `__base + GROUP_SIZES_OFFSET` and
`__base + GROUP_BYTES_OFFSET`, omitting the block offset. -/
def ANNOTATIONS.validate_full (base : B) (d : DB) : Result :=
  let result := ANNOTATIONS.validate_offset base d
  if result.hasFlag IRIS_FAILURE then result
  else
    let step := loadU16 base (d.off + ANNOTATIONS.ENTRY_SIZE)
    let entries := loadU32 base (d.off + ANNOTATIONS.ENTRY_NUMBER)
    let afterGroups : Result :=
      if ANNOTATIONS.groups base d then
        let gs := ANNOTATION_GROUP_SIZES.validate_full base
          ⟨loadU64 base ANNOTATIONS.GROUP_SIZES_OFFSET, d.fsize, d.ver⟩
        if gs.1.hasFlag IRIS_FAILURE then gs.1
        else ANNOTATION_GROUP_BYTES.validate_full base
          ⟨loadU64 base ANNOTATIONS.GROUP_BYTES_OFFSET, d.fsize, d.ver⟩ gs.2
      else result
    if afterGroups.hasFlag IRIS_FAILURE then afterGroups
    else
      let start := d.off + ANNOTATIONS.HEADER_V1_0_SIZE
      if start + entries * step > d.fsize then
        ⟨IRIS_FAILURE, annBoundsMsg start (start + entries * step)⟩
      else ANNOTATIONS.vloop base d.off d.fsize d.ver step afterGroups start entries

/-- In-memory annotation fields (`Abstraction::Annotation`); floats are
kept as decoded IEEE-754 values. -/
structure Annot where
  type : Nat
  xLocation : F32
  yLocation : F32
  xSize : F32
  ySize : F32
  width : Nat
  height : Nat
  parent : Nat
  byteSize : Nat
  dataOffset : Nat
deriving DecidableEq, Repr

structure AnnotGroup where
  off : Nat
  number : Nat
deriving DecidableEq, Repr

/-- `Abstraction::Annotations`: identifier-keyed map (association list)
plus the group map (label bytes to group handle). -/
structure Annotations where
  entries : List (Nat × Annot)
  groups : List (List Nat × AnnotGroup)
deriving DecidableEq, Repr

def annReadNullMsg : String :=
  "Failed ANNOTATION_ARRAY::read_annotations -- annotation entry contains invalid offset"

def annReadOobMsg : String :=
  "Failed ANNOTATION_ARRAY::read_annotations -- annotation entry out of file bounds read"

/-- The per-entry loop of `ANNOTATIONS::read_annotations`.  NOTE: as in the
source, (a) the entry bytes-offset is read at `__array +
IMAGE_ENTRY::BYTES_OFFSET` (offset 0); (b) the identifier, format and all
remaining fields are read through `__ptr` (the block start `blockOff`)
instead of the entry pointer; (c) the duplicate test inspects the map
being built but only prints a warning; and (d) the filled `Annot` value is
never inserted into the accumulator, which is returned unchanged. -/
def ANNOTATIONS.rloop (base : B) (blockOff fsize ver step : Nat) :
    Nat → Nat → List (Nat × Annot) → Except String (List (Nat × Annot))
  | _arr, 0, acc => .ok acc
  | arr, n + 1, acc =>
    let bytesOffset := loadU64 base (arr + IMAGE_ENTRY.BYTES_OFFSET)
    if bytesOffset = NULL_OFFSET then .error annReadNullMsg
    else if bytesOffset > fsize then .error annReadOobMsg
    else
      let _v := ANNOTATION_BYTES.validate_offset base ⟨bytesOffset, fsize, ver⟩
      let _identifier := loadU24 base (blockOff + ANNOTATION_ENTRY.IDENTIFIER)
      match ANNOTATION_BYTES.read_bytes base ⟨bytesOffset, fsize, ver⟩ with
      | .error e => .error e
      | .ok bs =>
        let ty := loadU8 base (blockOff + ANNOTATION_ENTRY.FORMAT)
        if !(VALIDATE_ANNOTATION_TYPE ty ver) then .error (annFormatMsg ty)
        else
          let _a : Annot :=
            ⟨ty, decodeF32 (loadU32 base (blockOff + ANNOTATION_ENTRY.X_LOCATION)),
              decodeF32 (loadU32 base (blockOff + ANNOTATION_ENTRY.Y_LOCATION)),
              decodeF32 (loadU32 base (blockOff + ANNOTATION_ENTRY.X_SIZE)),
              decodeF32 (loadU32 base (blockOff + ANNOTATION_ENTRY.Y_SIZE)),
              loadU32 base (blockOff + ANNOTATION_ENTRY.WIDTH),
              loadU32 base (blockOff + ANNOTATION_ENTRY.HEIGHT),
              loadU24 base (blockOff + ANNOTATION_ENTRY.PARENT),
              bs.1, bs.2⟩
          ANNOTATIONS.rloop base blockOff fsize ver step (arr + step) n acc

/-- `ANNOTATIONS::get_group_sizes` (throws on a failed offset check). -/
def ANNOTATIONS.get_group_sizes (base : B) (d : DB) : Except String DB :=
  let gs : DB := ⟨loadU64 base (d.off + ANNOTATIONS.GROUP_SIZES_OFFSET), d.fsize, d.ver⟩
  let result := ANNOTATION_GROUP_SIZES.validate_offset base gs
  if result.hasFlag IRIS_FAILURE then .error result.message else .ok gs

/-- `ANNOTATIONS::get_group_bytes` (the offset-check result there is
discarded). -/
def ANNOTATIONS.get_group_bytes (base : B) (d : DB) : Except String DB :=
  let offset := loadU64 base (d.off + ANNOTATIONS.GROUP_BYTES_OFFSET)
  if offset = NULL_OFFSET ∨ offset > d.fsize then
    .error "Invalid tile table offset value for ANNOTATION_GROUP_BYTES array."
  else
    let gb : DB := ⟨offset, d.fsize, d.ver⟩
    let _v := ANNOTATION_GROUP_BYTES.validate_offset base gb
    .ok gb

def groupBytesReadMismatchMsg (total bytes : Nat) : String :=
  "ANNOTATION_GROUP_BYTES::read_bytes failed -- expected bytes (" ++
  toString total ++
  ") from ANNOTATION_GROUP_SIZES array does not match the byte size of the ANNOTATION_GROUP_BYTES block (" ++
  toString bytes ++ "). Did you validate?"

def groupBytesReadBoundsMsg (lo hi : Nat) : String :=
  "Failed ANNOTATION_GROUP_BYTES::read_bytes -- out of bounds. Byte array block (location " ++
  toString lo ++ " - " ++ toString hi ++
  " bytes) extends beyond the end of file. Did you validate?"

/-- The group-building loop of `ANNOTATION_GROUP_BYTES::read_bytes`:
`start` is the running absolute offset recorded into each group handle. -/
def ANNOTATION_GROUP_BYTES.readLoop (base : B) :
    List (Nat × Nat) → Nat → List (List Nat × AnnotGroup) →
    List (List Nat × AnnotGroup)
  | [], _start, acc => acc
  | sz :: rest, start, acc =>
    let total := sz.1 + sz.2 * TYPE_SIZE_UINT24
    ANNOTATION_GROUP_BYTES.readLoop base rest (start + total)
      (acc ++ [(readBytes base start sz.1, ⟨start, sz.2⟩)])

/-- `ANNOTATION_GROUP_BYTES::read_bytes`. -/
def ANNOTATION_GROUP_BYTES.read_bytes (base : B) (d : DB)
    (sizes : List (Nat × Nat)) :
    Except String (List (List Nat × AnnotGroup)) :=
  let bytes := loadU32 base (d.off + ANNOTATION_GROUP_BYTES.ENTRY_NUMBER)
  let total := sizes.foldl (fun t s => t + s.1 + s.2 * TYPE_SIZE_UINT24) 0
  if total ≠ bytes then .error (groupBytesReadMismatchMsg total bytes)
  else
    let start := d.off + ANNOTATION_GROUP_BYTES.HEADER_V1_0_SIZE
    if start + bytes > d.fsize then
      .error (groupBytesReadBoundsMsg start (start + bytes))
    else .ok (ANNOTATION_GROUP_BYTES.readLoop base sizes start [])

/-- `ANNOTATIONS::read_annotations`. -/
def ANNOTATIONS.read_annotations (base : B) (d : DB) :
    Except String Annotations :=
  let step := loadU16 base (d.off + ANNOTATIONS.ENTRY_SIZE)
  let entries := loadU32 base (d.off + ANNOTATIONS.ENTRY_NUMBER)
  let start := d.off + ANNOTATIONS.HEADER_V1_0_SIZE
  if start + entries * step > d.fsize then
    .error (annBoundsMsg start (start + entries * step))
  else
    match ANNOTATIONS.rloop base d.off d.fsize d.ver step start entries [] with
    | .error e => .error e
    | .ok es =>
      if ANNOTATIONS.groups base d then
        match ANNOTATIONS.get_group_sizes base d with
        | .error e => .error e
        | .ok gsBlk =>
          match ANNOTATION_GROUP_SIZES.read_group_sizes base gsBlk with
          | .error e => .error e
          | .ok sizeArray =>
            match ANNOTATIONS.get_group_bytes base d with
            | .error e => .error e
            | .ok gbBlk =>
              match ANNOTATION_GROUP_BYTES.read_bytes base gbBlk sizeArray with
              | .error e => .error e
              | .ok gs => .ok ⟨es, gs⟩
      else .ok ⟨es, []⟩

/-! ### METADATA -/

def METADATA.CODEC_MAJOR : Nat := 10

def METADATA.CODEC_MINOR : Nat := 12

def METADATA.CODEC_BUILD : Nat := 14

def METADATA.ATTRIBUTES_OFFSET : Nat := 16

def METADATA.IMAGES_OFFSET : Nat := 24

def METADATA.ICC_COLOR_OFFSET : Nat := 32

def METADATA.ANNOTATIONS_OFFSET : Nat := 40

def METADATA.MICRONS_PIXEL : Nat := 48

def METADATA.MAGNIFICATION : Nat := 52

def METADATA.HEADER_V1_0_SIZE : Nat := 56

def METADATA.validate_offset (base : B) (d : DB) : Result :=
  DATA_BLOCK.validate_offset base d "METADATA" RECOVER_METADATA

/-- `METADATA::attributes`: the stored attributes offset is non-null and
in range. -/
def METADATA.attributes (base : B) (d : DB) : Bool :=
  let offset := loadU64 base (d.off + METADATA.ATTRIBUTES_OFFSET)
  offset != NULL_OFFSET && decide (offset < d.fsize)

/-- `METADATA::image_array`. -/
def METADATA.image_array (base : B) (d : DB) : Bool :=
  let offset := loadU64 base (d.off + METADATA.IMAGES_OFFSET)
  offset != NULL_OFFSET && decide (offset < d.fsize)

/-- `METADATA::color_profile`. -/
def METADATA.color_profile (base : B) (d : DB) : Bool :=
  let offset := loadU64 base (d.off + METADATA.ICC_COLOR_OFFSET)
  offset != NULL_OFFSET && decide (offset < d.fsize)

/-- `METADATA::annotations`: tests the stored ANNOTATIONS_OFFSET field. -/
def METADATA.annotations (base : B) (d : DB) : Bool :=
  let offset := loadU64 base (d.off + METADATA.ANNOTATIONS_OFFSET)
  offset != NULL_OFFSET && decide (offset < d.fsize)

/-- `METADATA::validate_full`.  NOTE: in the final branch the source tests
`annotations(__base)` (the ANNOTATIONS_OFFSET field) but then constructs
the ANNOTATIONS reader from `LOAD_U64(__ptr + IMAGES_OFFSET)`. -/
def METADATA.validate_full (base : B) (d : DB) : Result :=
  let r0 := METADATA.validate_offset base d
  if r0.hasFlag IRIS_FAILURE then r0
  else
    let rA := if METADATA.attributes base d then
        ATTRIBUTES.validate_full base
          ⟨loadU64 base (d.off + METADATA.ATTRIBUTES_OFFSET), d.fsize, d.ver⟩
      else r0
    if rA.hasFlag IRIS_FAILURE then rA
    else
      let rI := if METADATA.image_array base d then
          IMAGE_ARRAY.validate_full base
            ⟨loadU64 base (d.off + METADATA.IMAGES_OFFSET), d.fsize, d.ver⟩
        else rA
      if rI.hasFlag IRIS_FAILURE then rI
      else
        let rC := if METADATA.color_profile base d then
            ICC_PROFILE.validate_full base
              ⟨loadU64 base (d.off + METADATA.ICC_COLOR_OFFSET), d.fsize, d.ver⟩
          else rI
        if rC.hasFlag IRIS_FAILURE then rC
        else
          let rN := if METADATA.annotations base d then
              ANNOTATIONS.validate_full base
                ⟨loadU64 base (d.off + METADATA.IMAGES_OFFSET), d.fsize, d.ver⟩
            else rC
          if rN.hasFlag IRIS_FAILURE then rN
          else rN

/-! ### FILE_HEADER tree validation and the top-level orchestrator -/

/-- `Header` record returned by `FILE_HEADER::read_header`. -/
structure Header where
  fileSize : Nat
  extVersion : Nat
  revision : Nat
deriving DecidableEq, Repr

/-- `FILE_HEADER::read_header` (raises on any FAILURE bit). -/
def FILE_HEADER.read_header (base : B) (fsize : Nat) : Except String Header :=
  let result := FILE_HEADER.validate_header base fsize
  if result.hasFlag IRIS_FAILURE then .error result.message
  else .ok ⟨loadU64 base FILE_HEADER.FILE_SIZE,
    loadU16 base FILE_HEADER.EXTENSION_MAJOR <<< 16 |||
      loadU16 base FILE_HEADER.EXTENSION_MINOR,
    loadU32 base FILE_HEADER.FILE_REVISION⟩

/-- `FILE_HEADER::validate_full`: validates the header then the offsets of
the Tile Table and Metadata children at their stored offsets. -/
def FILE_HEADER.validate_full (base : B) (fsize : Nat) : Result :=
  let result := FILE_HEADER.validate_header base fsize
  if result.hasFlag IRIS_FAILURE then result
  else
    let version := loadU16 base FILE_HEADER.EXTENSION_MAJOR <<< 16 |||
      loadU16 base FILE_HEADER.EXTENSION_MINOR
    let r1 := TILE_TABLE.validate_offset base
      ⟨loadU64 base FILE_HEADER.TILE_TABLE_OFFSET, fsize, version⟩
    if r1.hasFlag IRIS_FAILURE then r1
    else
      let r2 := METADATA.validate_offset base
        ⟨loadU64 base FILE_HEADER.METADATA_OFFSET, fsize, version⟩
      if r2.hasFlag IRIS_FAILURE then r2
      else r2

/-- `FILE_HEADER::get_tile_table` (raises via `Except.error`). -/
def FILE_HEADER.get_tile_table (base : B) (fsize : Nat) : Except String DB := do
  let header ← FILE_HEADER.read_header base fsize
  if header.extVersion = 0 then
    throw "Failed to retrieve tile table. Invalid file header"
  let tt : DB := ⟨loadU64 base FILE_HEADER.TILE_TABLE_OFFSET, fsize, header.extVersion⟩
  let result := TILE_TABLE.validate_offset base tt
  if result.hasFlag IRIS_FAILURE then
    throw ("Failed to retrieve tile table: " ++ result.message)
  return tt

/-- `FILE_HEADER::get_metadata` (raises via `Except.error`). -/
def FILE_HEADER.get_metadata (base : B) (fsize : Nat) : Except String DB := do
  let header ← FILE_HEADER.read_header base fsize
  if header.extVersion = 0 then
    throw "Failed to retrieve clinical metadata. Invalid file header"
  let md : DB := ⟨loadU64 base FILE_HEADER.METADATA_OFFSET, fsize, header.extVersion⟩
  let result := METADATA.validate_offset base md
  if result.hasFlag IRIS_FAILURE then
    throw ("Failed to validate clinical metadata: " ++ result.message)
  return md

/-- `validate_file_structure`: tree-validates header, tile table and
metadata.  The source function is `noexcept`; an escaping exception from a
getter (modelled as `Except.error`) would terminate the program. -/
def validate_file_structure (base : B) (fsize : Nat) :
    Except String Result := do
  let r0 := FILE_HEADER.validate_full base fsize
  if r0.flag ≠ IRIS_SUCCESS then return r0
  let tt ← FILE_HEADER.get_tile_table base fsize
  let r1 := TILE_TABLE.validate_full base tt
  if r1.flag ≠ IRIS_SUCCESS then return r1
  let md ← FILE_HEADER.get_metadata base fsize
  let r2 := METADATA.validate_full base md
  if r2.flag ≠ IRIS_SUCCESS then return r2
  return Result.success

/-! ### STORE_ATTRIBUTES_BYTES (write-trace model)

Disk mutation of this writer is abstracted to the ordered list of
(absolute offset, byte length) spans it writes; attribute contents do not
influence control flow, so attributes are given as their (key length,
value length) pairs. -/

/-- The span trace of a STORE_* writer: the spans written, in program
order, and the raised error message if any. -/
structure StoreTrace where
  writes : List (Nat × Nat)
  err : Option String
deriving DecidableEq, Repr

/-- The attribute-copy loop of `STORE_ATTRIBUTES_BYTES`: as in the source,
the key length passes through `U16_CAST` and the value length through
`U32_CAST` before the memcpy, the pointer advance and the size
accumulation.  Returns the accumulated spans and the accumulated size. -/
def sabLoop : List (Nat × Nat) → Nat → Nat → List (Nat × Nat) →
    List (Nat × Nat) × Nat
  | [], _p, size, ws => (ws, size)
  | (k, v) :: rest, p, size, ws =>
    let keySize := k % 2 ^ 16
    let valueSize := v % 2 ^ 32
    sabLoop rest (p + keySize + valueSize) (size + keySize + valueSize)
      (ws ++ [(p, keySize), (p + keySize, valueSize)])

def sabOverflowMsg (size : Nat) : String :=
  "Failed to store attributes bytes -- attribute bytes array length (" ++
  toString size ++
  " bytes) exceeds key 32-bit size limit.\n Per the IFE specification Section 2.4.10, The number entry shall encode the total byte size of the annotation byte array and shall not exceed the 32-bit integer max value (4.29 GB)."

/-- `STORE_ATTRIBUTES_BYTES`.  The up-front checks (null offset, undefined
attribute type) raise before any span is written, but the 32-bit
size-limit check runs only after the prologue stores and all the
attribute memcpys have been performed. -/
def STORE_ATTRIBUTES_BYTES (offset ty : Nat) (attrs : List (Nat × Nat)) :
    StoreTrace :=
  if offset = NULL_OFFSET then
    ⟨[], some "Failed to store attributes bytes -- NULL_OFFSET provided as location"⟩
  else if ty = 0 then
    ⟨[], some "Failed to store attributes sizes -- undefined metadata attribute type"⟩
  else
    let head := [(offset + DATA_BLOCK.VALIDATION, 8),
                 (offset + DATA_BLOCK.RECOVERY, 2)]
    let body := sabLoop attrs (offset + ATTRIBUTES_BYTES.HEADER_V1_0_SIZE) 0 []
    if body.2 > UINT32_MAX then ⟨head ++ body.1, some (sabOverflowMsg body.2)⟩
    else ⟨head ++ body.1 ++ [(offset + ATTRIBUTES_BYTES.ENTRY_NUMBER, 4)], none⟩

/-! ### Concrete byte regions for the scenarios -/

/-- Scenario S1: a minimal 256-byte file with a valid header, tile table
(encoding JPEG, format RGBA8), one layer of one tile, a single sparse tile
entry (`offset = NULL_TILE`, `size = 0`) and a metadata block with all
child offsets null. -/
def S1 : B := buildRegion [
  (0, 4, MAGIC_BYTES), (4, 2, RECOVER_HEADER), (6, 8, 0x100),
  (14, 2, 1), (16, 2, 0), (18, 4, 0), (22, 8, 40), (30, 8, 120),
  (40, 8, 40), (48, 2, RECOVER_TILE_TABLE), (50, 1, 2), (51, 1, 4),
  (52, 8, NULL_OFFSET), (60, 8, 208), (68, 8, 176), (76, 4, 256), (80, 4, 256),
  (120, 8, 120), (128, 2, RECOVER_METADATA), (130, 2, 0), (132, 2, 0),
  (134, 2, 0), (136, 8, NULL_OFFSET), (144, 8, NULL_OFFSET),
  (152, 8, NULL_OFFSET), (160, 8, NULL_OFFSET),
  (168, 4, 0x3E800000), (172, 4, 0x41A00000),
  (176, 8, 176), (184, 2, RECOVER_LAYER_EXTENTS), (186, 2, 12), (188, 4, 1),
  (192, 4, 1), (196, 4, 1), (200, 4, 0x3F800000),
  (208, 8, 208), (216, 2, RECOVER_TILE_OFFSETS), (218, 2, 8), (220, 4, 1),
  (224, 5, NULL_TILE), (229, 3, 0)]

/-- Scenario S2: the bytes of S1 with the stored file size overwritten to
0x200 while the backing size stays 0x100. -/
def S2 : B := storeU64 S1 FILE_HEADER.FILE_SIZE 0x200

/-- A valid file header whose stored extension minor version (1) exceeds
the reader minor version (0). -/
def H6 : B := buildRegion [
  (0, 4, MAGIC_BYTES), (4, 2, RECOVER_HEADER), (6, 8, 0x100),
  (14, 2, 1), (16, 2, 1), (18, 4, 0), (22, 8, NULL_OFFSET), (30, 8, NULL_OFFSET)]

/-- A metadata block at offset 40 whose annotations offset (120) points at
a valid empty ANNOTATIONS block while the images offset is null. -/
def M3 : B := buildRegion [
  (40, 8, 40), (48, 2, RECOVER_METADATA),
  (56, 8, NULL_OFFSET), (64, 8, NULL_OFFSET), (72, 8, NULL_OFFSET),
  (80, 8, 120),
  (120, 8, 120), (128, 2, RECOVER_ANNOTATIONS), (130, 2, 39), (132, 4, 0),
  (136, 8, NULL_OFFSET), (144, 8, NULL_OFFSET)]

/-- An annotations block at offset 0 with entry size 39, two entries whose
first eight bytes hold the offsets of two valid ANNOTATION_BYTES blocks,
and null group offsets. -/
def A2 : B := buildRegion [
  (0, 8, 0), (8, 2, RECOVER_ANNOTATIONS), (10, 2, 39), (12, 4, 2),
  (16, 8, NULL_OFFSET), (24, 8, NULL_OFFSET),
  (32, 8, 200), (71, 8, 220),
  (200, 8, 200), (208, 2, RECOVER_ANNOTATION_BYTES), (210, 4, 4),
  (220, 8, 220), (228, 2, RECOVER_ANNOTATION_BYTES), (230, 4, 4)]

/-- An empty annotations block at offset 0 (zero entries, null group
offsets). -/
def A2e : B := buildRegion [
  (0, 8, 0), (8, 2, RECOVER_ANNOTATIONS), (10, 2, 39), (12, 4, 0),
  (16, 8, NULL_OFFSET), (24, 8, NULL_OFFSET)]

/-- An annotations block at offset 0 (zero entries) with group offsets 40
and 80: the Group Sizes block at 40 holds two entries (label sizes 1 and
2, zero members), and the Group Bytes block at 80 declares the matching
per-entry total of 3 bytes. -/
def G8 : B := buildRegion [
  (0, 8, 0), (8, 2, RECOVER_ANNOTATIONS), (10, 2, 39), (12, 4, 0),
  (16, 8, 40), (24, 8, 80),
  (40, 8, 40), (48, 2, RECOVER_ANNOTATION_GROUP_SIZES), (50, 2, 6), (52, 4, 2),
  (56, 2, 1), (58, 4, 0), (62, 2, 2), (64, 4, 0),
  (80, 8, 80), (88, 2, RECOVER_ANNOTATION_GROUP_BYTES), (90, 4, 3)]

/-- Modelled from the spec: the group cross total Σ (label_size +
member_count · 3) computed per entry from the advancing Group Sizes array
(label_size u16 at entry offset 0, member_count u32 at entry offset 2). -/
def groupSizesSpecTotal (base : B) (step : Nat) : Nat → Nat → Nat
  | _arr, 0 => 0
  | arr, n + 1 =>
    loadU16 base (arr + ANNOTATION_GROUP_SIZE.LABEL_SIZE) +
    loadU32 base (arr + ANNOTATION_GROUP_SIZE.ENTRIES_NUMBER) * TYPE_SIZE_UINT24 +
    groupSizesSpecTotal base step (arr + step) n

/-- An ANNOTATION_GROUP_BYTES block at offset 50 with a corrupt prologue
(self-offset field 999, recovery tag 0) and entry count 5. -/
def GB10 : B := buildRegion [(50, 8, 999), (58, 2, 0), (60, 4, 5)]

/-- A layer-extents block with two layers of equal scale 1.0f
(scenario S5). -/
def S5 : B := buildRegion [
  (0, 8, 0), (8, 2, RECOVER_LAYER_EXTENTS), (10, 2, 12), (12, 4, 2),
  (16, 4, 1), (20, 4, 1), (24, 4, 0x3F800000),
  (28, 4, 1), (32, 4, 1), (36, 4, 0x3F800000)]

/-- A valid layer-extents block with two layers: (1,1,1.0f) then
(3,2,2.0f). -/
def W7 : B := buildRegion [
  (0, 8, 0), (8, 2, RECOVER_LAYER_EXTENTS), (10, 2, 12), (12, 4, 2),
  (16, 4, 1), (20, 4, 1), (24, 4, 0x3F800000),
  (28, 4, 3), (32, 4, 2), (36, 4, 0x40000000)]

/-- The demonstration ICC profile: 65536 bytes of 0x61. -/
def iccProfileDemo : List Nat := List.replicate 65536 97

/-- The region produced by storing `iccProfileDemo` at offset 0 over the
zero region (lengths written out as the literal 65536). -/
def iccDemoStoredB : B :=
  memcpyB (storeU16 (storeU16 (storeU64 zeroB (0 + DATA_BLOCK.VALIDATION) 0)
    (0 + DATA_BLOCK.RECOVERY) RECOVER_ICC_PROFILE)
    (0 + ICC_PROFILE.ENTRY_NUMBER) (65536 % 2 ^ 32))
    (0 + ICC_PROFILE.HEADER_V1_0_SIZE) iccProfileDemo 65536

/-- The attribute size list used against C4: two attributes with one-byte
keys and values of 2^31 bytes each. -/
def c4DemoAttrs : List (Nat × Nat) := [(1, 2 ^ 31), (1, 2 ^ 31)]

/-! ## Claim theorems -/

/-- C1: contrary to the claim, `TILE_OFFSETS::validate_full` has no
sparse-tile exception: on the minimal S1 file, whose single tile entry has
`offset = NULL_TILE` and `size = 0`, it returns IRIS_FAILURE for that
entry, and `validate_file_structure` on S1 therefore returns that failure
rather than SUCCESS. -/
theorem tile_offsets_sparse_entry_fails_validation :
    loadU40 S1 (224 + TILE_OFFSET.OFFSET) = NULL_TILE ∧
    loadU24 S1 (224 + TILE_OFFSET.TILE_SIZE) = 0 ∧
    TILE_OFFSETS.validate_full S1 ⟨208, 256, IRIS_EXTENSION_1_0⟩ =
      ⟨IRIS_FAILURE, tileEntryOobMsg 0 256⟩ ∧
    validate_file_structure S1 256 = .ok ⟨IRIS_FAILURE, tileEntryOobMsg 0 256⟩ :=
  ⟨rfl, rfl, rfl, rfl⟩

/-- C3: contrary to the claim, `METADATA::validate_full` constructs the
ANNOTATIONS child from the IMAGES_OFFSET field: on M3, whose annotations
offset points at a fully valid ANNOTATIONS block at 120 while the images
offset is null, full metadata validation fails with the invalid-offset
message although the block at the stored annotations offset validates. -/
theorem metadata_validate_full_misreads_annotations_offset :
    METADATA.annotations M3 ⟨40, 256, IRIS_EXTENSION_1_0⟩ = true ∧
    loadU64 M3 (40 + METADATA.ANNOTATIONS_OFFSET) = 120 ∧
    loadU64 M3 (40 + METADATA.IMAGES_OFFSET) = NULL_OFFSET ∧
    ANNOTATIONS.validate_full M3 ⟨120, 256, IRIS_EXTENSION_1_0⟩ = Result.success ∧
    METADATA.validate_full M3 ⟨40, 256, IRIS_EXTENSION_1_0⟩ =
      ⟨IRIS_VALIDATION_FAILURE,
        "Invalid ANNOTATIONS object. The ANNOTATIONS was not created with a valid offset value."⟩ :=
  ⟨rfl, rfl, rfl, rfl, rfl⟩

/-- C4: contrary to the claim, `STORE_ATTRIBUTES_BYTES` raises its 32-bit
size-limit error only after writing the prologue and all attribute bytes:
on two attributes of value length `2^31` each, the trace shows six spans
written and the raised error. -/
theorem store_attributes_bytes_mutates_before_raise :
    STORE_ATTRIBUTES_BYTES 0 1 c4DemoAttrs =
      ⟨[(0, 8), (8, 2), (14, 1), (15, 2 ^ 31), (2 ^ 31 + 15, 1),
        (2 ^ 31 + 16, 2 ^ 31)], some (sabOverflowMsg (2 ^ 32 + 2))⟩ ∧
    (STORE_ATTRIBUTES_BYTES 0 1 c4DemoAttrs).writes ≠ [] ∧
    (STORE_ATTRIBUTES_BYTES 0 1 c4DemoAttrs).err ≠ none :=
  ⟨rfl, by decide, by decide⟩

/-- C6: contrary to the claim, `FILE_HEADER::validate_header` on a valid
header with stored minor version 1 (reader minor 0) returns the plain
SUCCESS result with no warning flag: the warning result it computes is
discarded by the final `return IRIS_SUCCESS`. -/
theorem validate_header_discards_newer_minor_warning :
    loadU16 H6 FILE_HEADER.EXTENSION_MINOR = 1 ∧
    IRIS_EXTENSION_MINOR = 0 ∧
    FILE_HEADER.validate_header H6 0x100 = ⟨IRIS_SUCCESS, ""⟩ ∧
    (FILE_HEADER.validate_header H6 0x100).hasFlag IRIS_WARNING = false ∧
    (FILE_HEADER.validate_header H6 0x100).hasFlag IRIS_WARNING_VALIDATION = false :=
  ⟨rfl, rfl, rfl, rfl, rfl⟩

/-- C8: contrary to the claim, the group cross-total check is not computed
per entry from the Group Sizes array: `ANNOTATION_GROUP_SIZES::validate_full`
reads every iteration through the block-start pointer, so on G8, where the
per-entry total (3) equals the Group Bytes entry count (3), the computed
expected total is 80 and `ANNOTATIONS::validate_full` fails with the
mismatch message. -/
theorem annotations_group_total_check_diverges :
    groupSizesSpecTotal G8 6 56 2 = 3 ∧
    loadU32 G8 (80 + ANNOTATION_GROUP_BYTES.ENTRY_NUMBER) = 3 ∧
    (ANNOTATION_GROUP_SIZES.validate_full G8 ⟨40, 256, IRIS_EXTENSION_1_0⟩).2 = 80 ∧
    ANNOTATIONS.validate_full G8 ⟨0, 256, IRIS_EXTENSION_1_0⟩ =
      ⟨IRIS_FAILURE, groupBytesMismatchMsg 80 3⟩ :=
  ⟨rfl, rfl, rfl, rfl⟩

/-- C9: contrary to the claim, `STORE_ICC_COLOR_PROFILE` writes the u32
entry-count field with a 16-bit store: after storing a 65536-byte profile
over the zero region, the stored u32 entry count reads 0 (not 65536) and
`read_profile` returns the empty byte string instead of a copy of the
profile. -/
theorem store_icc_profile_truncates_entry_count :
    iccProfileDemo.length = 65536 ∧
    STORE_ICC_COLOR_PROFILE zeroB 0 iccProfileDemo = .ok iccDemoStoredB ∧
    loadU32 iccDemoStoredB (0 + ICC_PROFILE.ENTRY_NUMBER) = 0 ∧
    ICC_PROFILE.read_profile iccDemoStoredB ⟨0, 256, IRIS_EXTENSION_1_0⟩ =
      .ok [] := by
  have hlen : iccProfileDemo.length = 65536 := by
    rw [iccProfileDemo, List.length_replicate]
  refine ⟨hlen, ?_, ?_, ?_⟩
  · unfold STORE_ICC_COLOR_PROFILE
    rw [if_neg (by decide), if_neg (by rw [hlen]; decide)]
    unfold iccDemoStoredB
    rw [hlen]
  · decide
  · rfl

/-- C10: `ANNOTATION_GROUP_BYTES::validate_full` never examines the block
prologue: its result depends only on the stored u32 entry count, the
expected total, the block offset and the file size; a block with a corrupt
self-offset and recovery tag still passes full validation when the totals
and bounds agree, even though `validate_offset` rejects it. -/
theorem group_bytes_validate_full_prologue_independent :
    (∀ (b b' : B) (d : DB) (expected : Nat),
      loadU32 b (d.off + ANNOTATION_GROUP_BYTES.ENTRY_NUMBER) =
        loadU32 b' (d.off + ANNOTATION_GROUP_BYTES.ENTRY_NUMBER) →
      ANNOTATION_GROUP_BYTES.validate_full b d expected =
        ANNOTATION_GROUP_BYTES.validate_full b' d expected) ∧
    loadU64 GB10 50 = 999 ∧
    loadU16 GB10 58 = 0 ∧
    ANNOTATION_GROUP_BYTES.validate_full GB10 ⟨50, 256, IRIS_EXTENSION_1_0⟩ 5 =
      Result.success ∧
    (ANNOTATION_GROUP_BYTES.validate_offset GB10
        ⟨50, 256, IRIS_EXTENSION_1_0⟩).hasFlag IRIS_VALIDATION_FAILURE = true := by
  refine ⟨?_, rfl, rfl, rfl, rfl⟩
  intro b b' d expected h
  unfold ANNOTATION_GROUP_BYTES.validate_full
  rw [h]

/-- C10 witness: the prologue-independence conjunct applied at the
concrete block GB10 and the same block with its self-offset field
rewritten to 12345. -/
theorem group_bytes_validate_full_prologue_independent_witness :
    ANNOTATION_GROUP_BYTES.validate_full GB10 ⟨50, 256, IRIS_EXTENSION_1_0⟩ 5 =
      ANNOTATION_GROUP_BYTES.validate_full (storeU64 GB10 50 12345)
        ⟨50, 256, IRIS_EXTENSION_1_0⟩ 5 :=
  group_bytes_validate_full_prologue_independent.1 GB10 (storeU64 GB10 50 12345)
    ⟨50, 256, IRIS_EXTENSION_1_0⟩ 5 (by decide)

/-- C5: for any region with valid magic and header recovery tag, a stored
file size differing from the backing size makes `validate_header` return
VALIDATION_FAILURE with the size-mismatch message and makes
`validate_file_structure` return that same failure; when the sizes agree
the check passes and `validate_header` succeeds. -/
theorem validate_header_file_size_check (base : B) (fsize : Nat)
    (h0 : fsize ≠ 0)
    (hm : loadU32 base FILE_HEADER.MAGIC_BYTES_OFFSET = MAGIC_BYTES)
    (hr : loadU16 base FILE_HEADER.RECOVERY = RECOVER_HEADER) :
    (loadU64 base FILE_HEADER.FILE_SIZE ≠ fsize →
      FILE_HEADER.validate_header base fsize =
        ⟨IRIS_VALIDATION_FAILURE,
          fileSizeMismatchMsg (loadU64 base FILE_HEADER.FILE_SIZE) fsize⟩ ∧
      validate_file_structure base fsize =
        .ok ⟨IRIS_VALIDATION_FAILURE,
          fileSizeMismatchMsg (loadU64 base FILE_HEADER.FILE_SIZE) fsize⟩) ∧
    (loadU64 base FILE_HEADER.FILE_SIZE = fsize →
      FILE_HEADER.validate_header base fsize = ⟨IRIS_SUCCESS, ""⟩) := by
  constructor
  · intro hne
    have hv : FILE_HEADER.validate_header base fsize =
        ⟨IRIS_VALIDATION_FAILURE,
          fileSizeMismatchMsg (loadU64 base FILE_HEADER.FILE_SIZE) fsize⟩ := by
      unfold FILE_HEADER.validate_header
      rw [if_neg h0, hm, if_neg (by simp), hr, if_neg (by simp), if_pos hne]
    refine ⟨hv, ?_⟩
    have hvf : FILE_HEADER.validate_full base fsize =
        ⟨IRIS_VALIDATION_FAILURE,
          fileSizeMismatchMsg (loadU64 base FILE_HEADER.FILE_SIZE) fsize⟩ := by
      unfold FILE_HEADER.validate_full
      rw [hv]
      simp [Result.hasFlag, IRIS_VALIDATION_FAILURE, IRIS_FAILURE]
    unfold validate_file_structure
    rw [hvf]
    simp [IRIS_SUCCESS, IRIS_VALIDATION_FAILURE, pure, Except.pure]
  · intro heq
    unfold FILE_HEADER.validate_header
    rw [if_neg h0, hm, if_neg (by simp), hr, if_neg (by simp),
      if_neg (by simpa using heq)]

/-- C5 witness: applied to S2 (stored size 0x200, backing size 0x100, the
mismatch branch) and to S1 (sizes agree, the passing branch). -/
theorem validate_header_file_size_check_witness :
    (FILE_HEADER.validate_header S2 0x100 =
      ⟨IRIS_VALIDATION_FAILURE,
        fileSizeMismatchMsg (loadU64 S2 FILE_HEADER.FILE_SIZE) 0x100⟩ ∧
     validate_file_structure S2 0x100 =
      .ok ⟨IRIS_VALIDATION_FAILURE,
        fileSizeMismatchMsg (loadU64 S2 FILE_HEADER.FILE_SIZE) 0x100⟩) ∧
    FILE_HEADER.validate_header S1 0x100 = ⟨IRIS_SUCCESS, ""⟩ :=
  ⟨(validate_header_file_size_check S2 0x100 (by decide) rfl rfl).1 (by decide),
   (validate_header_file_size_check S1 0x100 (by decide) rfl rfl).2 rfl⟩

/-- If the per-entry loop of `LAYER_EXTENTS::validate_full` returns
SUCCESS, every entry it covered has `x_tiles ≥ 1`, `y_tiles ≥ 1` and a
scale strictly greater than its predecessor (the initial `prior` for the
first entry). -/
theorem layer_extents_loop_ok (base : B) (step : Nat) :
    ∀ (n arr li : Nat) (prior : F32),
      LAYER_EXTENTS.loop base step arr li n prior = Result.success →
      ∀ k, k < n →
        1 ≤ loadU32 base (arr + k * step + LAYER_EXTENT.X_TILES) ∧
        1 ≤ loadU32 base (arr + k * step + LAYER_EXTENT.Y_TILES) ∧
        F32.gtF (decodeF32 (loadU32 base (arr + k * step + LAYER_EXTENT.SCALE)))
          (if k = 0 then prior
           else decodeF32 (loadU32 base (arr + (k - 1) * step + LAYER_EXTENT.SCALE))) =
          true := by
  intro n
  induction n with
  | zero => intro arr li prior _h k hk; exact absurd hk (Nat.not_lt_zero k)
  | succ n ih =>
    intro arr li prior h k hk
    rw [LAYER_EXTENTS.loop] at h
    by_cases h1 : loadU32 base (arr + LAYER_EXTENT.X_TILES) < 1
    · rw [if_pos h1] at h
      exact absurd (congrArg Result.flag h)
        (by simp [IRIS_FAILURE, Result.success, IRIS_SUCCESS])
    rw [if_neg h1] at h
    by_cases h2 : loadU32 base (arr + LAYER_EXTENT.Y_TILES) < 1
    · rw [if_pos h2] at h
      exact absurd (congrArg Result.flag h)
        (by simp [IRIS_FAILURE, Result.success, IRIS_SUCCESS])
    rw [if_neg h2] at h
    by_cases h3 :
      (!(F32.gtF (decodeF32 (loadU32 base (arr + LAYER_EXTENT.SCALE))) prior)) = true
    · rw [if_pos h3] at h
      exact absurd (congrArg Result.flag h)
        (by simp [IRIS_FAILURE, Result.success, IRIS_SUCCESS])
    rw [if_neg h3] at h
    have hgt : F32.gtF (decodeF32 (loadU32 base (arr + LAYER_EXTENT.SCALE))) prior =
        true := by simpa using h3
    cases k with
    | zero =>
      have e0 : arr + 0 * step = arr := by ring
      rw [e0]
      exact ⟨Nat.le_of_not_lt h1, Nat.le_of_not_lt h2, by simpa using hgt⟩
    | succ m =>
      have h' := ih (arr + step) (li + 1)
        (decodeF32 (loadU32 base (arr + LAYER_EXTENT.SCALE))) h m
        (Nat.lt_of_succ_lt_succ hk)
      obtain ⟨hx, hy, hs⟩ := h'
      rw [if_neg (Nat.succ_ne_zero m)]
      have es : Nat.succ m - 1 = m := rfl
      rw [es]
      cases m with
      | zero =>
        rw [if_pos rfl] at hs
        refine ⟨?_, ?_, ?_⟩
        · ring_nf at hx ⊢; exact hx
        · ring_nf at hy ⊢; exact hy
        · ring_nf at hs ⊢; exact hs
      | succ p =>
        rw [if_neg (Nat.succ_ne_zero p)] at hs
        have es2 : Nat.succ p - 1 = p := rfl
        rw [es2] at hs
        refine ⟨?_, ?_, ?_⟩
        · ring_nf at hx ⊢; exact hx
        · ring_nf at hy ⊢; exact hy
        · ring_nf at hs ⊢; exact hs

/-- C7: `LAYER_EXTENTS::validate_full` succeeds only if every entry has
`x_tiles ≥ 1`, `y_tiles ≥ 1` and a scale strictly greater than the
previous entry scale (the first greater than 0.f); and on the two equal
layers of S5 it returns FAILURE naming layer 1. -/
theorem layer_extents_validate_full_invariants :
    (∀ (base : B) (d : DB),
      LAYER_EXTENTS.validate_full base d = Result.success →
      ∀ k, k < loadU32 base (d.off + LAYER_EXTENTS.ENTRY_NUMBER) →
        1 ≤ loadU32 base (d.off + LAYER_EXTENTS.HEADER_V1_0_SIZE +
              k * loadU16 base (d.off + LAYER_EXTENTS.ENTRY_SIZE) +
              LAYER_EXTENT.X_TILES) ∧
        1 ≤ loadU32 base (d.off + LAYER_EXTENTS.HEADER_V1_0_SIZE +
              k * loadU16 base (d.off + LAYER_EXTENTS.ENTRY_SIZE) +
              LAYER_EXTENT.Y_TILES) ∧
        F32.gtF (decodeF32 (loadU32 base (d.off + LAYER_EXTENTS.HEADER_V1_0_SIZE +
              k * loadU16 base (d.off + LAYER_EXTENTS.ENTRY_SIZE) +
              LAYER_EXTENT.SCALE)))
          (if k = 0 then F32.fin 0
           else decodeF32 (loadU32 base (d.off + LAYER_EXTENTS.HEADER_V1_0_SIZE +
              (k - 1) * loadU16 base (d.off + LAYER_EXTENTS.ENTRY_SIZE) +
              LAYER_EXTENT.SCALE))) = true) ∧
    LAYER_EXTENTS.validate_full S5 ⟨0, 256, IRIS_EXTENSION_1_0⟩ =
      ⟨IRIS_FAILURE, layerScaleMsg 1⟩ := by
  constructor
  · intro base d h k hk
    simp only [LAYER_EXTENTS.validate_full] at h
    split_ifs at h with hvo hb
    · rw [h] at hvo
      simp [Result.success, IRIS_SUCCESS] at hvo
    · exact absurd (congrArg Result.flag h)
        (by simp [IRIS_FAILURE, Result.success, IRIS_SUCCESS])
    · exact layer_extents_loop_ok base
        (loadU16 base (d.off + LAYER_EXTENTS.ENTRY_SIZE))
        (loadU32 base (d.off + LAYER_EXTENTS.ENTRY_NUMBER))
        (d.off + LAYER_EXTENTS.HEADER_V1_0_SIZE) 0 (F32.fin 0) h k hk
  · rfl

/-- C7 witness: the only-if direction applied to the valid two-layer
block W7 at layer index 1. -/
theorem layer_extents_validate_full_invariants_witness :
    1 ≤ loadU32 W7 (0 + LAYER_EXTENTS.HEADER_V1_0_SIZE +
          1 * loadU16 W7 (0 + LAYER_EXTENTS.ENTRY_SIZE) + LAYER_EXTENT.X_TILES) ∧
    1 ≤ loadU32 W7 (0 + LAYER_EXTENTS.HEADER_V1_0_SIZE +
          1 * loadU16 W7 (0 + LAYER_EXTENTS.ENTRY_SIZE) + LAYER_EXTENT.Y_TILES) ∧
    F32.gtF (decodeF32 (loadU32 W7 (0 + LAYER_EXTENTS.HEADER_V1_0_SIZE +
          1 * loadU16 W7 (0 + LAYER_EXTENTS.ENTRY_SIZE) + LAYER_EXTENT.SCALE)))
      (if (1 : Nat) = 0 then F32.fin 0
       else decodeF32 (loadU32 W7 (0 + LAYER_EXTENTS.HEADER_V1_0_SIZE +
          (1 - 1) * loadU16 W7 (0 + LAYER_EXTENTS.ENTRY_SIZE) +
          LAYER_EXTENT.SCALE))) = true :=
  layer_extents_validate_full_invariants.1 W7 ⟨0, 256, IRIS_EXTENSION_1_0⟩ rfl 1
    (by decide)

/-- The entry loop of `ANNOTATIONS::read_annotations` returns its
accumulator unchanged whenever it succeeds: no entry is ever inserted. -/
theorem annotations_rloop_fixed (base : B) (blockOff fsize ver step : Nat) :
    ∀ (n arr : Nat) (acc res : List (Nat × Annot)),
      ANNOTATIONS.rloop base blockOff fsize ver step arr n acc = .ok res →
      res = acc := by
  intro n
  induction n with
  | zero =>
    intro arr acc res h
    rw [ANNOTATIONS.rloop] at h
    exact (Except.ok.inj h).symm
  | succ n ih =>
    intro arr acc res h
    simp only [ANNOTATIONS.rloop] at h
    split_ifs at h with h1 h2 h3
    · cases hrb : ANNOTATION_BYTES.read_bytes base
        ⟨loadU64 base (arr + IMAGE_ENTRY.BYTES_OFFSET), fsize, ver⟩ with
      | error e => simp only [hrb] at h; exact Except.noConfusion h
      | ok bs => simp only [hrb] at h; exact Except.noConfusion h
    · cases hrb : ANNOTATION_BYTES.read_bytes base
        ⟨loadU64 base (arr + IMAGE_ENTRY.BYTES_OFFSET), fsize, ver⟩ with
      | error e => simp only [hrb] at h; exact Except.noConfusion h
      | ok bs =>
        simp only [hrb] at h
        exact ih (arr + step) acc res h

/-- C2: contrary to the claim, `ANNOTATIONS::read_annotations` never
populates the identifier map (every successful run returns an empty entry
map), and on the A2 block holding two standard 39-byte entries it does not
even succeed: it reads the per-entry format byte from the block header
(byte 11, the high byte of the stored entry size 39, which is 0) and
raises the undefined-format error instead of returning one entry per
distinct identifier. -/
theorem read_annotations_returns_no_identifier_entries :
    (∀ (base : B) (d : DB) (a : Annotations),
      ANNOTATIONS.read_annotations base d = .ok a → a.entries = []) ∧
    loadU32 A2 (0 + ANNOTATIONS.ENTRY_NUMBER) = 2 ∧
    ANNOTATIONS.read_annotations A2 ⟨0, 256, IRIS_EXTENSION_1_0⟩ =
      .error (annFormatMsg 0) := by
  refine ⟨?_, rfl, rfl⟩
  intro base d a h
  simp only [ANNOTATIONS.read_annotations] at h
  split_ifs at h with hb hg
  · cases hr : ANNOTATIONS.rloop base d.off d.fsize d.ver
        (loadU16 base (d.off + ANNOTATIONS.ENTRY_SIZE))
        (d.off + ANNOTATIONS.HEADER_V1_0_SIZE)
        (loadU32 base (d.off + ANNOTATIONS.ENTRY_NUMBER)) [] with
    | error e => simp only [hr] at h; exact Except.noConfusion h
    | ok es =>
      simp only [hr] at h
      have hes : es = [] :=
        annotations_rloop_fixed base d.off d.fsize d.ver _ _ _ _ _ hr
      subst hes
      cases hgs : ANNOTATIONS.get_group_sizes base d with
      | error e => simp only [hgs] at h; exact Except.noConfusion h
      | ok gsBlk =>
        simp only [hgs] at h
        cases hsa : ANNOTATION_GROUP_SIZES.read_group_sizes base gsBlk with
        | error e => simp only [hsa] at h; exact Except.noConfusion h
        | ok sizeArray =>
          simp only [hsa] at h
          cases hgb : ANNOTATIONS.get_group_bytes base d with
          | error e => simp only [hgb] at h; exact Except.noConfusion h
          | ok gbBlk =>
            simp only [hgb] at h
            cases hrb2 : ANNOTATION_GROUP_BYTES.read_bytes base gbBlk sizeArray with
            | error e => simp only [hrb2] at h; exact Except.noConfusion h
            | ok gs =>
              simp only [hrb2] at h
              rw [← Except.ok.inj h]
  · cases hr : ANNOTATIONS.rloop base d.off d.fsize d.ver
        (loadU16 base (d.off + ANNOTATIONS.ENTRY_SIZE))
        (d.off + ANNOTATIONS.HEADER_V1_0_SIZE)
        (loadU32 base (d.off + ANNOTATIONS.ENTRY_NUMBER)) [] with
    | error e => simp only [hr] at h; exact Except.noConfusion h
    | ok es =>
      simp only [hr] at h
      have hes : es = [] :=
        annotations_rloop_fixed base d.off d.fsize d.ver _ _ _ _ _ hr
      subst hes
      rw [← Except.ok.inj h]

/-- C2 witness: the empty-map conclusion applied to the empty annotations
block A2e, on which `read_annotations` succeeds. -/
theorem read_annotations_returns_no_identifier_entries_witness :
    ANNOTATIONS.read_annotations A2e ⟨0, 256, IRIS_EXTENSION_1_0⟩ =
      .ok ⟨[], []⟩ ∧
    (Annotations.mk [] []).entries = [] :=
  ⟨rfl, read_annotations_returns_no_identifier_entries.1 A2e
    ⟨0, 256, IRIS_EXTENSION_1_0⟩ ⟨[], []⟩ rfl⟩

end IrisCodec
